import Mathlib

/-!
krakend-httpcache: the cache transport selector of `http.go`

A shallow embedding of `NewHTTPClient` (src/http.go) and of the factory closure it
returns.  The package-level variables `memTransport` and `httpClient`, together with a
log of the `redis.Dial` calls made so far, form an explicit state (`World`) that every
operation threads through.  The outcome of a dial belongs to the environment and is
given by a `Network`.
-/

namespace HttpCache

/-! ## Go values held in an `interface{}` -/

/-- Dynamic values that an `interface{}` of a configuration can hold.  A `float64` is
kept as its 64-bit IEEE-754 pattern; a `map[string]interface{}` is a list of entries
read by first match (a nil map reads like the empty one, so both are `[]`). -/
inductive Value where
  | nil
  | bool (b : Bool)
  | int (n : Int)
  | int64 (n : Int)
  | float64 (bits : Nat)
  | str (s : String)
  | list (xs : List Value)
  | strMap (m : List (String × String))
  | map (m : List (String × Value))

/-- A Go `map[string]interface{}`. -/
abbrev GoMap := List (String × Value)

/-- Map indexing `m[k]`: the stored value, or the zero value (a nil interface) when the
key is missing. -/
def GoMap.index (m : GoMap) (k : String) : Value :=
  match m.lookup k with
  | some v => v
  | none => Value.nil

/-- Map assignment `m[k] = v`. -/
def GoMap.set (m : GoMap) (k : String) (v : Value) : GoMap :=
  (k, v) :: m.filter (fun e => e.1 != k)

/-- Map deletion `delete(m, k)`. -/
def GoMap.erase (m : GoMap) (k : String) : GoMap :=
  m.filter (fun e => e.1 != k)

/-- Type assertion `v.(string)`. -/
def Value.asString : Value → Option String
  | Value.str s => some s
  | _ => none

/-- Type assertion `v.(int)`. -/
def Value.asInt : Value → Option Int
  | Value.int n => some n
  | _ => none

/-- Type assertion `v.(map[string]interface{})`. -/
def Value.asMap : Value → Option GoMap
  | Value.map m => some m
  | _ => none

/-! ## Transports, clients and the package state -/

/-- A live connection handle returned by `redis.Dial`. -/
abbrev Conn := Nat

/-- The backing store of a cache transport: `httpcache.NewMemoryCache()` or
`cacheRedis.NewWithClient(conn)`. -/
inductive Cache where
  | memory
  | redis (conn : Conn)
  deriving DecidableEq, Repr

/-- The `Transport` field of an `http.Client`: nil (the default, non-caching transport)
or an `httpcache.Transport` over a cache. -/
inductive RoundTripper where
  | nil
  | cache (store : Cache)
  deriving DecidableEq, Repr

/-- The library constructor `httpcache.NewTransport(c)`. -/
def NewTransport (c : Cache) : RoundTripper := RoundTripper.cache c

/-- The library constructor `cacheRedis.NewWithClient(conn)`. -/
def NewWithClient (conn : Conn) : Cache := Cache.redis conn

/-- The package variable `memTransport = httpcache.NewMemoryCacheTransport()`, set once
when the package is loaded and assigned nowhere else. -/
def memTransport : RoundTripper := NewTransport Cache.memory

/-- An `http.Client` value; only its `Transport` field is ever set by the package. -/
structure Client where
  Transport : RoundTripper
  deriving DecidableEq, Repr

/-- The arguments of one `redis.Dial` call: network, address, and the `DialDatabase`,
`DialPassword` and `DialUsername` options. -/
structure DialParams where
  network : String
  address : String
  db : Int
  password : String
  username : String
  deriving DecidableEq, Repr

/-- The package state: the variable `httpClient` and the dial calls made so far, oldest
first. -/
structure World where
  httpClient : Client
  dials : List DialParams
  deriving DecidableEq, Repr

/-- The state right after the package is loaded: `httpClient` is the zero `http.Client`
and nothing has been dialed. -/
def World.init : World :=
  { httpClient := { Transport := RoundTripper.nil }, dials := [] }

/-- The environment: what the k-th dial call (counting from 0) returns for given
arguments, a connection or an error. -/
abbrev Network := Nat → DialParams → Except String Conn

/-- One call of `redis.Dial`: it is logged and answered by the network. -/
def redisDial (net : Network) (p : DialParams) (w : World) : Except String Conn × World :=
  (net w.dials.length p, { w with dials := w.dials ++ [p] })

/-- A `*http.Client` handed to a caller: the host's own client, a newly allocated
client, or the address `&httpClient` of the package variable. -/
inductive ClientRef where
  | host
  | fresh (c : Client)
  | shared
  deriving DecidableEq, Repr

/-- The client that the host's `client.NewHTTPClient` (lura, an external dependency)
returns: its `defaultHTTPClient = &http.Client{}`, which has no transport set. -/
def hostDefaultClient : Client := { Transport := RoundTripper.nil }

/-- The client a pointer designates in a given state. -/
def ClientRef.deref (w : World) : ClientRef → Client
  | ClientRef.host => hostDefaultClient
  | ClientRef.fresh c => c
  | ClientRef.shared => w.httpClient

/-! ## The configuration and `NewHTTPClient` -/

/-- The constant `Namespace`. -/
def Namespace : String := "github.com/jonathansudibya/krakend-httpcache"

/-- The part of `config.Backend` that the package reads. -/
structure Backend where
  ExtraConfig : GoMap

/-- The connection arguments of the `"redis"` case (src/http.go lines 45-65): each option
is type-asserted and replaced by its default when the assertion fails. -/
def redisParams (extCfg : GoMap) : DialParams :=
  let hostname := match (extCfg.index "redis_hostname").asString with
    | some s => s
    | none => ":6379"
  let db := match (extCfg.index "redis_db").asInt with
    | some n => n
    | none => 0
  let redisPassword := match (extCfg.index "redis_password").asString with
    | some s => s
    | none => ""
  let redisUsername := match (extCfg.index "redis_username").asString with
    | some s => s
    | none => ""
  { network := "tcp", address := hostname, db := db,
    password := redisPassword, username := redisUsername }

/-- The storage type read at src/http.go lines 38-41. -/
def storageOf (extCfg : GoMap) : String :=
  match (extCfg.index "storage").asString with
  | some s => s
  | none => "memory"

/-- The body of the closure returned by `NewHTTPClient` (src/http.go lines 30-78), run
on the captured `extCfgRaw`. -/
def cachedFactory (extCfgRaw : Value) (net : Network) (w : World) : ClientRef × World :=
  match extCfgRaw.asMap with
  | none => (ClientRef.fresh { Transport := memTransport }, w)
  | some extCfg =>
    if storageOf extCfg = "redis" then
      match redisDial net (redisParams extCfg) w with
      | (Except.error _, w1) => (ClientRef.shared, w1)
      | (Except.ok dbConn, w1) =>
        let cacheStrg := NewWithClient dbConn
        let redisTransport := NewTransport cacheStrg
        (ClientRef.shared, { w1 with httpClient := { Transport := redisTransport } })
    else
      (ClientRef.shared, { w with httpClient := { Transport := memTransport } })

/-- A `client.HTTPClientFactory` as `NewHTTPClient` can return it: the host's
`client.NewHTTPClient` itself, or the closure over `extCfgRaw`. -/
inductive ClientFactory where
  | hostDefault
  | closure (extCfgRaw : Value)

/-- The function `NewHTTPClient` (src/http.go lines 25-79). -/
def NewHTTPClient (cfg : Backend) (w : World) : ClientFactory × World :=
  match cfg.ExtraConfig.lookup Namespace with
  | none => (ClientFactory.hostDefault, w)
  | some extCfgRaw => (ClientFactory.closure extCfgRaw, w)

/-- Calling a factory with a context (which the closure ignores). -/
def ClientFactory.invoke (net : Network) (w : World) : ClientFactory → ClientRef × World
  | ClientFactory.hostDefault => (ClientRef.host, w)
  | ClientFactory.closure extCfgRaw => cachedFactory extCfgRaw net w

/-- Build the factory for `cfg` and call it once, as `testClient` does. -/
def buildAndInvoke (cfg : Backend) (net : Network) (w : World) : ClientRef × World :=
  let r := NewHTTPClient cfg w
  r.1.invoke net r.2

/-- Call one factory `n` times in a row. -/
def invokeTimes (net : Network) (f : ClientFactory) : Nat → World → World
  | 0, w => w
  | n + 1, w => invokeTimes net f n (f.invoke net w).2

/-- The transport seen through a handed-out client in a given state. -/
def seenTransport (w : World) (c : ClientRef) : RoundTripper :=
  (c.deref w).Transport

/-- Whether a configuration selects redis storage: its namespace entry is a
`map[string]interface{}` whose `storage` is the string `"redis"`. -/
def selectsRedis (cfg : Backend) : Bool :=
  match cfg.ExtraConfig.lookup Namespace with
  | some (Value.map extCfg) => storageOf extCfg == "redis"
  | _ => false

/-! ## Configurations of the test file -/

/-- The `sampleCfg` of src/http_test.go: an empty options map. -/
def sampleCfg : Backend :=
  { ExtraConfig := [(Namespace, Value.map [])] }

/-- The configuration of `TestClient_ko`: no namespace entry. -/
def koCfg : Backend := { ExtraConfig := [] }

/-- The configuration of `TestClient_redis_ok`. -/
def redisOkCfg : Backend :=
  { ExtraConfig := [(Namespace, Value.map
      [("storage", Value.str "redis"),
       ("redis_hostname", Value.str "localhost:6379"),
       ("redis_db", Value.int 0),
       ("redis_username", Value.str ""),
       ("redis_password", Value.str "")])] }

/-- The options of `TestClient_redis_ko`: every connection option has the wrong type. -/
def redisKoOpts : GoMap :=
  [("storage", Value.str "redis"),
   ("redis_hostname", Value.int 0),
   ("redis_db", Value.str "string"),
   ("redis_username", Value.int 0),
   ("redis_password", Value.int 0)]

/-- The configuration of `TestClient_redis_ko`. -/
def redisKoCfg : Backend :=
  { ExtraConfig := [(Namespace, Value.map redisKoOpts)] }

/-- A network on which every dial is refused. -/
def netDown : Network := fun _ _ => Except.error "connection refused"

/-- A network on which the k-th dial yields connection `k + 1`. -/
def netUp : Network := fun k _ => Except.ok (k + 1)

/-- Whether calling the factory of `cfg` in state `w` reaches an assignment to
`httpClient`: a memory-mode call that goes through the switch, or a redis-mode call
whose dial succeeds. -/
def assignsHttpClient (cfg : Backend) (net : Network) (w : World) : Bool :=
  match cfg.ExtraConfig.lookup Namespace with
  | some (Value.map extCfg) =>
    if storageOf extCfg = "redis" then
      match net w.dials.length (redisParams extCfg) with
      | Except.ok _ => true
      | Except.error _ => false
    else true
  | _ => false

/-- Run a sequence of build-and-call steps, each with its own network behaviour. -/
def runAll : List (Backend × Network) → World → World
  | [], w => w
  | (cfg, net) :: rest, w => runAll rest (buildAndInvoke cfg net w).2

/-- No step of the sequence, run from `w`, reaches an assignment to `httpClient`. -/
def neverAssigns : List (Backend × Network) → World → Bool
  | [], _ => true
  | (cfg, net) :: rest, w =>
    !assignsHttpClient cfg net w && neverAssigns rest (buildAndInvoke cfg net w).2

/-! ## Basic facts about the embedding -/

theorem asString_eq_some (v : Value) (s : String) :
    v.asString = some s ↔ v = Value.str s := by
  cases v <;> simp [Value.asString]

theorem asInt_eq_none (v : Value) : v.asInt = none ↔ ∀ n, v ≠ Value.int n := by
  cases v <;> simp [Value.asInt]

theorem storageOf_eq_redis (extCfg : GoMap) :
    storageOf extCfg = "redis" ↔ (extCfg.index "storage").asString = some "redis" := by
  unfold storageOf
  cases h : (extCfg.index "storage").asString with
  | none => simp
  | some s => simp

theorem buildAndInvoke_absent (cfg : Backend) (net : Network) (w : World)
    (h : cfg.ExtraConfig.lookup Namespace = none) :
    buildAndInvoke cfg net w = (ClientRef.host, w) := by
  simp [buildAndInvoke, NewHTTPClient, h, ClientFactory.invoke]

theorem buildAndInvoke_present (cfg : Backend) (v : Value) (net : Network) (w : World)
    (h : cfg.ExtraConfig.lookup Namespace = some v) :
    buildAndInvoke cfg net w = cachedFactory v net w := by
  simp [buildAndInvoke, NewHTTPClient, h, ClientFactory.invoke]

theorem cachedFactory_not_map (v : Value) (net : Network) (w : World)
    (hv : v.asMap = none) :
    cachedFactory v net w = (ClientRef.fresh { Transport := memTransport }, w) := by
  simp [cachedFactory, hv]

theorem cachedFactory_memory (extCfg : GoMap) (net : Network) (w : World)
    (hs : storageOf extCfg ≠ "redis") :
    cachedFactory (Value.map extCfg) net w =
      (ClientRef.shared, { w with httpClient := { Transport := memTransport } }) := by
  simp [cachedFactory, Value.asMap, hs]

theorem cachedFactory_redis_error (extCfg : GoMap) (net : Network) (w : World) (e : String)
    (hs : storageOf extCfg = "redis")
    (hd : net w.dials.length (redisParams extCfg) = Except.error e) :
    cachedFactory (Value.map extCfg) net w =
      (ClientRef.shared, { w with dials := w.dials ++ [redisParams extCfg] }) := by
  simp [cachedFactory, Value.asMap, hs, redisDial, hd]

theorem cachedFactory_redis_ok (extCfg : GoMap) (net : Network) (w : World) (c : Conn)
    (hs : storageOf extCfg = "redis")
    (hd : net w.dials.length (redisParams extCfg) = Except.ok c) :
    cachedFactory (Value.map extCfg) net w =
      (ClientRef.shared,
        { httpClient := { Transport := NewTransport (NewWithClient c) },
          dials := w.dials ++ [redisParams extCfg] }) := by
  simp [cachedFactory, Value.asMap, hs, redisDial, hd]

theorem cachedFactory_redis_dials (extCfg : GoMap) (net : Network) (w : World)
    (hs : storageOf extCfg = "redis") :
    (cachedFactory (Value.map extCfg) net w).2.dials = w.dials ++ [redisParams extCfg] := by
  cases hd : net w.dials.length (redisParams extCfg) with
  | error e => rw [cachedFactory_redis_error extCfg net w e hs hd]
  | ok c => rw [cachedFactory_redis_ok extCfg net w c hs hd]

theorem index_set_ne (m : GoMap) (k k1 : String) (v : Value) (h : k ≠ k1) :
    (m.set k v).index k1 = m.index k1 := by
  have hk : (k1 == k) = false := by simpa using (Ne.symm h)
  unfold GoMap.index GoMap.set
  rw [List.lookup_cons, hk]
  have : List.lookup k1 (List.filter (fun e => e.1 != k) m) = List.lookup k1 m := by
    induction m with
    | nil => rfl
    | cons e rest ih =>
      obtain ⟨a, b⟩ := e
      by_cases hak : a = k
      · subst hak
        have h1 : (k1 == a) = false := hk
        simp [List.filter, List.lookup, h1, ih]
      · have h2 : (a != k) = true := by simpa using hak
        simp only [List.filter, h2, List.lookup]
        rw [ih]
  rw [this]

theorem index_erase_ne (m : GoMap) (k k1 : String) (h : k ≠ k1) :
    (m.erase k).index k1 = m.index k1 := by
  have hk : (k1 == k) = false := by simpa using (Ne.symm h)
  unfold GoMap.index GoMap.erase
  have : List.lookup k1 (List.filter (fun e => e.1 != k) m) = List.lookup k1 m := by
    induction m with
    | nil => rfl
    | cons e rest ih =>
      obtain ⟨a, b⟩ := e
      by_cases hak : a = k
      · subst hak
        have h1 : (k1 == a) = false := hk
        simp [List.filter, List.lookup, h1, ih]
      · have h2 : (a != k) = true := by simpa using hak
        simp only [List.filter, h2, List.lookup]
        rw [ih]
  rw [this]

theorem seenTransport_shared (w : World) :
    seenTransport w ClientRef.shared = w.httpClient.Transport := rfl

theorem memTransport_ne_redis (c : Conn) : NewTransport (NewWithClient c) ≠ memTransport := by
  simp [NewTransport, NewWithClient, memTransport]

/-! ## The claims -/

/-- C1: for every Backend whose ExtraConfig has no entry under the Namespace key,
NewHTTPClient returns the host's default factory itself and leaves the package state
(httpClient and the dial log) as it was; calling that factory then hands out the host's
client, again without touching httpClient or dialing. -/
theorem newHTTPClient_without_namespace (cfg : Backend) (net : Network) (w : World)
    (h : cfg.ExtraConfig.lookup Namespace = none) :
    NewHTTPClient cfg w = (ClientFactory.hostDefault, w) ∧
      buildAndInvoke cfg net w = (ClientRef.host, w) := by
  refine ⟨?_, buildAndInvoke_absent cfg net w h⟩
  simp [NewHTTPClient, h]

theorem newHTTPClient_without_namespace_witness :
    (({ ExtraConfig := [("other/namespace", Value.str "x")] } : Backend).ExtraConfig.lookup
        Namespace = none) ∧
      (NewHTTPClient { ExtraConfig := [("other/namespace", Value.str "x")] } World.init
          = (ClientFactory.hostDefault, World.init) ∧
        buildAndInvoke { ExtraConfig := [("other/namespace", Value.str "x")] } netUp World.init
          = (ClientRef.host, World.init)) :=
  ⟨rfl, newHTTPClient_without_namespace _ netUp World.init rfl⟩

/-- C2: when the Namespace entry is an options map whose storage is absent, not a
string, or a string other than "redis", the client handed out by the factory has
memTransport as its Transport, whatever the prior package state; so two such
configurations hand out clients over the same transport. -/
theorem memory_mode_uses_memTransport (cfgA cfgB : Backend) (optsA optsB : GoMap)
    (netA netB : Network) (wA wB : World)
    (hA : cfgA.ExtraConfig.lookup Namespace = some (Value.map optsA))
    (hB : cfgB.ExtraConfig.lookup Namespace = some (Value.map optsB))
    (hsA : (optsA.index "storage").asString ≠ some "redis")
    (hsB : (optsB.index "storage").asString ≠ some "redis") :
    seenTransport (buildAndInvoke cfgA netA wA).2 (buildAndInvoke cfgA netA wA).1
        = memTransport ∧
      seenTransport (buildAndInvoke cfgB netB wB).2 (buildAndInvoke cfgB netB wB).1
        = memTransport ∧
      seenTransport (buildAndInvoke cfgA netA wA).2 (buildAndInvoke cfgA netA wA).1
        = seenTransport (buildAndInvoke cfgB netB wB).2 (buildAndInvoke cfgB netB wB).1 := by
  have hA1 : storageOf optsA ≠ "redis" := fun hc => hsA ((storageOf_eq_redis optsA).1 hc)
  have hB1 : storageOf optsB ≠ "redis" := fun hc => hsB ((storageOf_eq_redis optsB).1 hc)
  rw [buildAndInvoke_present cfgA _ netA wA hA, buildAndInvoke_present cfgB _ netB wB hB,
    cachedFactory_memory optsA netA wA hA1, cachedFactory_memory optsB netB wB hB1]
  exact ⟨rfl, rfl, rfl⟩

theorem memory_mode_uses_memTransport_witness :
    (sampleCfg.ExtraConfig.lookup Namespace = some (Value.map [])) ∧
      (({ ExtraConfig := [(Namespace, Value.map [("storage", Value.str "Redis")])] }
          : Backend).ExtraConfig.lookup Namespace
        = some (Value.map [("storage", Value.str "Redis")])) ∧
      (GoMap.index [] "storage").asString ≠ some "redis" ∧
      (GoMap.index [("storage", Value.str "Redis")] "storage").asString ≠ some "redis" ∧
      (seenTransport (buildAndInvoke sampleCfg netUp World.init).2
          (buildAndInvoke sampleCfg netUp World.init).1 = memTransport ∧
        seenTransport
          (buildAndInvoke { ExtraConfig := [(Namespace, Value.map [("storage", Value.str "Redis")])] }
            netDown World.init).2
          (buildAndInvoke { ExtraConfig := [(Namespace, Value.map [("storage", Value.str "Redis")])] }
            netDown World.init).1 = memTransport ∧
        seenTransport (buildAndInvoke sampleCfg netUp World.init).2
          (buildAndInvoke sampleCfg netUp World.init).1 =
        seenTransport
          (buildAndInvoke { ExtraConfig := [(Namespace, Value.map [("storage", Value.str "Redis")])] }
            netDown World.init).2
          (buildAndInvoke { ExtraConfig := [(Namespace, Value.map [("storage", Value.str "Redis")])] }
            netDown World.init).1) :=
  ⟨rfl, rfl, by decide, by decide,
    memory_mode_uses_memTransport sampleCfg _ [] [("storage", Value.str "Redis")]
      netUp netDown World.init World.init rfl rfl (by decide) (by decide)⟩

/-- C3: when the Namespace entry is present but is not a map from string to untyped
value, the factory hands out a new client over memTransport, the transport it also
hands out for the empty options map, and the package state is untouched (no dial). -/
theorem non_map_entry_uses_memTransport (cfg : Backend) (v : Value) (net : Network)
    (w : World) (h : cfg.ExtraConfig.lookup Namespace = some v) (hv : v.asMap = none) :
    buildAndInvoke cfg net w = (ClientRef.fresh { Transport := memTransport }, w) ∧
      seenTransport (buildAndInvoke cfg net w).2 (buildAndInvoke cfg net w).1 = memTransport ∧
      (buildAndInvoke cfg net w).2.dials = w.dials ∧
      ∀ (net0 : Network) (w0 : World),
        seenTransport (buildAndInvoke cfg net w).2 (buildAndInvoke cfg net w).1 =
          seenTransport (buildAndInvoke sampleCfg net0 w0).2
            (buildAndInvoke sampleCfg net0 w0).1 := by
  rw [buildAndInvoke_present cfg v net w h, cachedFactory_not_map v net w hv]
  refine ⟨rfl, rfl, rfl, ?_⟩
  intro net0 w0
  rfl

theorem non_map_entry_uses_memTransport_witness :
    (({ ExtraConfig := [(Namespace, Value.strMap [("storage", "redis")])] }
        : Backend).ExtraConfig.lookup Namespace
      = some (Value.strMap [("storage", "redis")])) ∧
      (Value.strMap [("storage", "redis")]).asMap = none ∧
      (buildAndInvoke { ExtraConfig := [(Namespace, Value.strMap [("storage", "redis")])] }
          netUp World.init = (ClientRef.fresh { Transport := memTransport }, World.init) ∧
        seenTransport
          (buildAndInvoke { ExtraConfig := [(Namespace, Value.strMap [("storage", "redis")])] }
            netUp World.init).2
          (buildAndInvoke { ExtraConfig := [(Namespace, Value.strMap [("storage", "redis")])] }
            netUp World.init).1 = memTransport ∧
        (buildAndInvoke { ExtraConfig := [(Namespace, Value.strMap [("storage", "redis")])] }
            netUp World.init).2.dials = World.init.dials ∧
        ∀ (net0 : Network) (w0 : World),
          seenTransport
            (buildAndInvoke { ExtraConfig := [(Namespace, Value.strMap [("storage", "redis")])] }
              netUp World.init).2
            (buildAndInvoke { ExtraConfig := [(Namespace, Value.strMap [("storage", "redis")])] }
              netUp World.init).1 =
          seenTransport (buildAndInvoke sampleCfg net0 w0).2
            (buildAndInvoke sampleCfg net0 w0).1) :=
  ⟨rfl, rfl, non_map_entry_uses_memTransport _ _ netUp World.init rfl rfl⟩

/-- C4 (evaluation at the failing input): with the options of TestClient_redis_ko, in
the state right after package load, a refused dial makes the factory hand out
&httpClient whose Transport is still nil, not memTransport; and after an earlier
successful redis call the failed call hands out the earlier redis transport. -/
theorem redis_dial_failure_not_memTransport :
    buildAndInvoke redisKoCfg netDown World.init =
        (ClientRef.shared,
          { httpClient := { Transport := RoundTripper.nil },
            dials := [{ network := "tcp", address := ":6379", db := 0,
                        password := "", username := "" }] }) ∧
      seenTransport (buildAndInvoke redisKoCfg netDown World.init).2
          (buildAndInvoke redisKoCfg netDown World.init).1 = RoundTripper.nil ∧
      seenTransport (buildAndInvoke redisKoCfg netDown World.init).2
          (buildAndInvoke redisKoCfg netDown World.init).1 ≠ memTransport ∧
      seenTransport
          (buildAndInvoke redisKoCfg netDown (buildAndInvoke redisOkCfg netUp World.init).2).2
          (buildAndInvoke redisKoCfg netDown (buildAndInvoke redisOkCfg netUp World.init).2).1
        = NewTransport (NewWithClient 1) := by
  refine ⟨by decide, by decide, by decide, by decide⟩

/-- C5: with storage = "redis", when the dial of this invocation succeeds with
connection c, the factory hands out &httpClient whose Transport is the cache transport
built over exactly c: it is not memTransport, it is over no other connection, and the
dial has been logged. -/
theorem redis_dial_success_uses_connection (cfg : Backend) (opts : GoMap) (net : Network)
    (w : World) (c : Conn)
    (h : cfg.ExtraConfig.lookup Namespace = some (Value.map opts))
    (hs : opts.index "storage" = Value.str "redis")
    (hd : net w.dials.length (redisParams opts) = Except.ok c) :
    (buildAndInvoke cfg net w).1 = ClientRef.shared ∧
      (buildAndInvoke cfg net w).2.httpClient
        = { Transport := NewTransport (NewWithClient c) } ∧
      seenTransport (buildAndInvoke cfg net w).2 (buildAndInvoke cfg net w).1
        = NewTransport (NewWithClient c) ∧
      seenTransport (buildAndInvoke cfg net w).2 (buildAndInvoke cfg net w).1
        ≠ memTransport ∧
      (∀ c0 : Conn, c0 ≠ c →
        seenTransport (buildAndInvoke cfg net w).2 (buildAndInvoke cfg net w).1
          ≠ NewTransport (NewWithClient c0)) ∧
      (buildAndInvoke cfg net w).2.dials = w.dials ++ [redisParams opts] := by
  have hs1 : storageOf opts = "redis" :=
    (storageOf_eq_redis opts).2 ((asString_eq_some _ _).2 hs)
  rw [buildAndInvoke_present cfg _ net w h, cachedFactory_redis_ok opts net w c hs1 hd]
  refine ⟨rfl, rfl, rfl, memTransport_ne_redis c, ?_, rfl⟩
  intro c0 hc0 heq
  apply hc0
  simp [seenTransport, ClientRef.deref, NewTransport, NewWithClient] at heq
  exact heq.symm

theorem redis_dial_success_uses_connection_witness :
    (redisOkCfg.ExtraConfig.lookup Namespace = some (Value.map
        [("storage", Value.str "redis"),
         ("redis_hostname", Value.str "localhost:6379"),
         ("redis_db", Value.int 0),
         ("redis_username", Value.str ""),
         ("redis_password", Value.str "")])) ∧
      netUp (buildAndInvoke sampleCfg netUp World.init).2.dials.length
          { network := "tcp", address := "localhost:6379", db := 0,
            password := "", username := "" } = Except.ok 1 ∧
      seenTransport
          (buildAndInvoke redisOkCfg netUp (buildAndInvoke sampleCfg netUp World.init).2).2
          (buildAndInvoke redisOkCfg netUp (buildAndInvoke sampleCfg netUp World.init).2).1
        = NewTransport (NewWithClient 1) :=
  ⟨rfl, rfl, (redis_dial_success_uses_connection redisOkCfg _ netUp
      (buildAndInvoke sampleCfg netUp World.init).2 1 rfl rfl rfl).2.2.1⟩

/-! ### Lemmas on dial counts and on writes to `httpClient` -/

theorem factory_independent_of_state (cfg : Backend) (w0 w1 : World) :
    (NewHTTPClient cfg w0).1 = (NewHTTPClient cfg w1).1 := by
  unfold NewHTTPClient
  cases cfg.ExtraConfig.lookup Namespace <;> rfl

theorem invoke_dials_length (cfg : Backend) (net : Network) (w0 w : World) :
    ((NewHTTPClient cfg w0).1.invoke net w).2.dials.length =
      w.dials.length + (if selectsRedis cfg then 1 else 0) := by
  unfold NewHTTPClient selectsRedis
  cases hl : cfg.ExtraConfig.lookup Namespace with
  | none => simp [ClientFactory.invoke]
  | some v =>
    cases v with
    | map m =>
      by_cases hs : storageOf m = "redis"
      · simp [ClientFactory.invoke, cachedFactory_redis_dials m net w hs, hs]
      · simp [ClientFactory.invoke, cachedFactory_memory m net w hs, hs]
    | _ => simp [ClientFactory.invoke, cachedFactory, Value.asMap]

theorem invoke_dials_extend (f : ClientFactory) (net : Network) (w : World) :
    ∃ extra, (f.invoke net w).2.dials = w.dials ++ extra := by
  cases f with
  | hostDefault => exact ⟨[], by simp [ClientFactory.invoke]⟩
  | closure v =>
    cases v with
    | map m =>
      by_cases hs : storageOf m = "redis"
      · exact ⟨[redisParams m], by simp [ClientFactory.invoke, cachedFactory_redis_dials m net w hs]⟩
      · exact ⟨[], by simp [ClientFactory.invoke, cachedFactory_memory m net w hs]⟩
    | _ => exact ⟨[], by simp [ClientFactory.invoke, cachedFactory, Value.asMap]⟩

theorem invokeTimes_dials_length (cfg : Backend) (net : Network) (w0 : World) (n : Nat) :
    ∀ w : World, (invokeTimes net (NewHTTPClient cfg w0).1 n w).dials.length =
      w.dials.length + (if selectsRedis cfg then n else 0) := by
  induction n with
  | zero => intro w; simp [invokeTimes]
  | succ k ih =>
    intro w
    rw [invokeTimes, ih, invoke_dials_length]
    by_cases hr : selectsRedis cfg = true
    · simp [hr]; omega
    · simp [hr]

theorem httpClient_kept_of_not_assigns (cfg : Backend) (net : Network) (w : World)
    (hq : assignsHttpClient cfg net w = false) :
    (buildAndInvoke cfg net w).2.httpClient = w.httpClient := by
  unfold assignsHttpClient at hq
  cases hl : cfg.ExtraConfig.lookup Namespace with
  | none => rw [buildAndInvoke_absent cfg net w hl]
  | some v =>
    rw [buildAndInvoke_present cfg v net w hl]
    rw [hl] at hq
    cases v with
    | map m =>
      by_cases hs : storageOf m = "redis"
      · cases hd : net w.dials.length (redisParams m) with
        | error e => rw [cachedFactory_redis_error m net w e hs hd]
        | ok c => simp [hs, hd] at hq
      · simp [hs] at hq
    | _ => simp [cachedFactory, Value.asMap]

theorem httpClient_kept_of_neverAssigns (steps : List (Backend × Network)) :
    ∀ w : World, neverAssigns steps w = true → (runAll steps w).httpClient = w.httpClient := by
  induction steps with
  | nil => intro w _; rfl
  | cons st rest ih =>
    intro w hq
    obtain ⟨cfg, net⟩ := st
    simp only [neverAssigns, Bool.and_eq_true, Bool.not_eq_true'] at hq
    rw [runAll, ih _ hq.2, httpClient_kept_of_not_assigns cfg net w hq.1]

theorem redisParams_address_congr (m1 m2 : GoMap)
    (h : m1.index "redis_hostname" = m2.index "redis_hostname") :
    (redisParams m1).address = (redisParams m2).address := by
  simp [redisParams, h]

theorem redisParams_db_congr (m1 m2 : GoMap)
    (h : m1.index "redis_db" = m2.index "redis_db") :
    (redisParams m1).db = (redisParams m2).db := by
  simp [redisParams, h]

theorem redisParams_username_congr (m1 m2 : GoMap)
    (h : m1.index "redis_username" = m2.index "redis_username") :
    (redisParams m1).username = (redisParams m2).username := by
  simp [redisParams, h]

theorem redisParams_password_congr (m1 m2 : GoMap)
    (h : m1.index "redis_password" = m2.index "redis_password") :
    (redisParams m1).password = (redisParams m2).password := by
  simp [redisParams, h]

/-! ## The claims, continued -/

/-- C6: in redis mode the dial is made with the four connection parameters, each
defaulted on its own: the address is redis_hostname if a string and ":6379" otherwise,
the database is redis_db if an int and 0 otherwise, the username and the password are
redis_username and redis_password if strings and "" otherwise.  Assigning or deleting
any other key of the options leaves a parameter as it was, and with all four mistyped
(TestClient_redis_ko) the dial gets ":6379", 0, "", "". -/
theorem redis_params_defaulted_independently (opts : GoMap) :
    ((∀ s, opts.index "redis_hostname" = Value.str s → (redisParams opts).address = s) ∧
      ((∀ s, opts.index "redis_hostname" ≠ Value.str s) →
        (redisParams opts).address = ":6379")) ∧
    ((∀ n, opts.index "redis_db" = Value.int n → (redisParams opts).db = n) ∧
      ((∀ n, opts.index "redis_db" ≠ Value.int n) → (redisParams opts).db = 0)) ∧
    ((∀ s, opts.index "redis_username" = Value.str s → (redisParams opts).username = s) ∧
      ((∀ s, opts.index "redis_username" ≠ Value.str s) →
        (redisParams opts).username = "")) ∧
    ((∀ s, opts.index "redis_password" = Value.str s → (redisParams opts).password = s) ∧
      ((∀ s, opts.index "redis_password" ≠ Value.str s) →
        (redisParams opts).password = "")) ∧
    (∀ (net : Network) (w : World), opts.index "storage" = Value.str "redis" →
      (cachedFactory (Value.map opts) net w).2.dials = w.dials ++ [redisParams opts]) ∧
    (∀ (k : String) (v : Value), k ≠ "redis_hostname" →
      (redisParams (opts.set k v)).address = (redisParams opts).address ∧
      (redisParams (opts.erase k)).address = (redisParams opts).address) ∧
    (∀ (k : String) (v : Value), k ≠ "redis_db" →
      (redisParams (opts.set k v)).db = (redisParams opts).db ∧
      (redisParams (opts.erase k)).db = (redisParams opts).db) ∧
    (∀ (k : String) (v : Value), k ≠ "redis_username" →
      (redisParams (opts.set k v)).username = (redisParams opts).username ∧
      (redisParams (opts.erase k)).username = (redisParams opts).username) ∧
    (∀ (k : String) (v : Value), k ≠ "redis_password" →
      (redisParams (opts.set k v)).password = (redisParams opts).password ∧
      (redisParams (opts.erase k)).password = (redisParams opts).password) ∧
    redisParams redisKoOpts =
      { network := "tcp", address := ":6379", db := 0, password := "", username := "" } := by
  refine ⟨⟨?_, ?_⟩, ⟨?_, ?_⟩, ⟨?_, ?_⟩, ⟨?_, ?_⟩, ?_, ?_, ?_, ?_, ?_, by decide⟩
  · intro s hs
    simp [redisParams, hs, Value.asString]
  · intro hn
    cases hv : opts.index "redis_hostname" <;>
      first
        | exact absurd hv (hn _)
        | simp [redisParams, hv, Value.asString]
  · intro n hs
    simp [redisParams, hs, Value.asInt]
  · intro hn
    cases hv : opts.index "redis_db" <;>
      first
        | exact absurd hv (hn _)
        | simp [redisParams, hv, Value.asInt]
  · intro s hs
    simp [redisParams, hs, Value.asString]
  · intro hn
    cases hv : opts.index "redis_username" <;>
      first
        | exact absurd hv (hn _)
        | simp [redisParams, hv, Value.asString]
  · intro s hs
    simp [redisParams, hs, Value.asString]
  · intro hn
    cases hv : opts.index "redis_password" <;>
      first
        | exact absurd hv (hn _)
        | simp [redisParams, hv, Value.asString]
  · intro net w hs
    exact cachedFactory_redis_dials opts net w
      ((storageOf_eq_redis opts).2 ((asString_eq_some _ _).2 hs))
  · intro k v hk
    exact ⟨redisParams_address_congr _ _ (index_set_ne opts k _ v hk),
      redisParams_address_congr _ _ (index_erase_ne opts k _ hk)⟩
  · intro k v hk
    exact ⟨redisParams_db_congr _ _ (index_set_ne opts k _ v hk),
      redisParams_db_congr _ _ (index_erase_ne opts k _ hk)⟩
  · intro k v hk
    exact ⟨redisParams_username_congr _ _ (index_set_ne opts k _ v hk),
      redisParams_username_congr _ _ (index_erase_ne opts k _ hk)⟩
  · intro k v hk
    exact ⟨redisParams_password_congr _ _ (index_set_ne opts k _ v hk),
      redisParams_password_congr _ _ (index_erase_ne opts k _ hk)⟩

theorem redis_params_defaulted_independently_witness :
    (redisParams (GoMap.set
        [("storage", Value.str "redis"), ("redis_hostname", Value.str "cache:6380"),
         ("redis_db", Value.int 2)] "redis_db" (Value.str "two"))).address = "cache:6380" ∧
      (redisParams (GoMap.erase
        [("storage", Value.str "redis"), ("redis_hostname", Value.str "cache:6380"),
         ("redis_db", Value.int 2)] "redis_hostname")).db = 2 :=
  ⟨((redis_params_defaulted_independently
        [("storage", Value.str "redis"), ("redis_hostname", Value.str "cache:6380"),
         ("redis_db", Value.int 2)]).2.2.2.2.2.1 "redis_db" (Value.str "two")
        (by decide)).1.trans (by decide),
    ((redis_params_defaulted_independently
        [("storage", Value.str "redis"), ("redis_hostname", Value.str "cache:6380"),
         ("redis_db", Value.int 2)]).2.2.2.2.2.2.1 "redis_hostname" Value.nil
        (by decide)).2.trans (by decide)⟩

/-- C7: NewHTTPClient itself leaves the dial log (and httpClient) untouched; one call of
the factory it returns adds exactly one dial to the log when the configuration selects
storage = "redis" and none otherwise, keeping the earlier entries; n calls of the
factory add n dials in redis mode and none otherwise. -/
theorem dial_once_per_invocation (cfg : Backend) (net : Network) (w : World) (n : Nat) :
    (NewHTTPClient cfg w).2 = w ∧
      ((NewHTTPClient cfg w).1.invoke net w).2.dials.length =
        w.dials.length + (if selectsRedis cfg then 1 else 0) ∧
      (∃ extra, ((NewHTTPClient cfg w).1.invoke net w).2.dials = w.dials ++ extra) ∧
      (invokeTimes net (NewHTTPClient cfg w).1 n w).dials.length =
        w.dials.length + (if selectsRedis cfg then n else 0) := by
  refine ⟨?_, invoke_dials_length cfg net w w, invoke_dials_extend _ net w,
    invokeTimes_dials_length cfg net w n w⟩
  unfold NewHTTPClient
  cases cfg.ExtraConfig.lookup Namespace <;> rfl

/-- C8 (evaluation at the failing input): the client handed out by a memory-mode call is
&httpClient; a later successful redis-mode call assigns httpClient, so the Transport
seen through the earlier client changes from memTransport to the redis transport. -/
theorem handed_out_client_is_rebound :
    (buildAndInvoke sampleCfg netUp World.init).1 = ClientRef.shared ∧
      seenTransport (buildAndInvoke sampleCfg netUp World.init).2
          (buildAndInvoke sampleCfg netUp World.init).1 = memTransport ∧
      seenTransport
          (buildAndInvoke redisOkCfg netUp (buildAndInvoke sampleCfg netUp World.init).2).2
          (buildAndInvoke sampleCfg netUp World.init).1 = NewTransport (NewWithClient 1) ∧
      (buildAndInvoke redisOkCfg netUp (buildAndInvoke sampleCfg netUp World.init).2).2.httpClient
        ≠ (buildAndInvoke sampleCfg netUp World.init).2.httpClient := by
  refine ⟨by decide, by decide, by decide, by decide⟩

/-- C9: with storage = "redis", when the dial fails the call leaves httpClient as it was
and hands out &httpClient, so the Transport of the handed-out client is the one
httpClient held before the call: nil when no earlier call assigned httpClient since
package load, memTransport right after a memory-mode call that went through the switch,
and the earlier redis transport right after a successful redis-mode call. -/
theorem redis_dial_failure_keeps_httpClient (cfg : Backend) (opts : GoMap) (net : Network)
    (w : World) (e : String)
    (h : cfg.ExtraConfig.lookup Namespace = some (Value.map opts))
    (hs : opts.index "storage" = Value.str "redis")
    (hd : net w.dials.length (redisParams opts) = Except.error e) :
    (buildAndInvoke cfg net w).1 = ClientRef.shared ∧
      (buildAndInvoke cfg net w).2.httpClient = w.httpClient ∧
      seenTransport (buildAndInvoke cfg net w).2 (buildAndInvoke cfg net w).1
        = w.httpClient.Transport ∧
      (∀ steps : List (Backend × Network), neverAssigns steps World.init = true →
        w = runAll steps World.init →
        seenTransport (buildAndInvoke cfg net w).2 (buildAndInvoke cfg net w).1
          = RoundTripper.nil) ∧
      (∀ (cfg0 : Backend) (opts0 : GoMap) (net0 : Network) (w0 : World),
        cfg0.ExtraConfig.lookup Namespace = some (Value.map opts0) →
        (opts0.index "storage").asString ≠ some "redis" →
        w = (buildAndInvoke cfg0 net0 w0).2 →
        seenTransport (buildAndInvoke cfg net w).2 (buildAndInvoke cfg net w).1
          = memTransport) ∧
      (∀ (cfg0 : Backend) (opts0 : GoMap) (net0 : Network) (w0 : World) (c : Conn),
        cfg0.ExtraConfig.lookup Namespace = some (Value.map opts0) →
        opts0.index "storage" = Value.str "redis" →
        net0 w0.dials.length (redisParams opts0) = Except.ok c →
        w = (buildAndInvoke cfg0 net0 w0).2 →
        seenTransport (buildAndInvoke cfg net w).2 (buildAndInvoke cfg net w).1
          = NewTransport (NewWithClient c)) := by
  have hs1 : storageOf opts = "redis" :=
    (storageOf_eq_redis opts).2 ((asString_eq_some _ _).2 hs)
  rw [buildAndInvoke_present cfg _ net w h, cachedFactory_redis_error opts net w e hs1 hd]
  refine ⟨rfl, rfl, rfl, ?_, ?_, ?_⟩
  · intro steps hq hw
    show w.httpClient.Transport = RoundTripper.nil
    rw [hw, httpClient_kept_of_neverAssigns steps World.init hq]
    rfl
  · intro cfg0 opts0 net0 w0 h0 hs0 hw
    have hm : storageOf opts0 ≠ "redis" := fun hc => hs0 ((storageOf_eq_redis opts0).1 hc)
    show w.httpClient.Transport = memTransport
    rw [hw, buildAndInvoke_present cfg0 _ net0 w0 h0, cachedFactory_memory opts0 net0 w0 hm]
  · intro cfg0 opts0 net0 w0 c h0 hs0 hd0 hw
    have hr : storageOf opts0 = "redis" :=
      (storageOf_eq_redis opts0).2 ((asString_eq_some _ _).2 hs0)
    show w.httpClient.Transport = NewTransport (NewWithClient c)
    rw [hw, buildAndInvoke_present cfg0 _ net0 w0 h0,
      cachedFactory_redis_ok opts0 net0 w0 c hr hd0]

theorem redis_dial_failure_keeps_httpClient_witness :
    (redisKoCfg.ExtraConfig.lookup Namespace = some (Value.map redisKoOpts)) ∧
      redisKoOpts.index "storage" = Value.str "redis" ∧
      netDown World.init.dials.length (redisParams redisKoOpts)
        = Except.error "connection refused" ∧
      (buildAndInvoke redisKoCfg netDown World.init).1 = ClientRef.shared ∧
      (buildAndInvoke redisKoCfg netDown World.init).2.httpClient = World.init.httpClient ∧
      seenTransport (buildAndInvoke redisKoCfg netDown World.init).2
          (buildAndInvoke redisKoCfg netDown World.init).1 = RoundTripper.nil :=
  ⟨rfl, rfl, rfl,
    (redis_dial_failure_keeps_httpClient redisKoCfg redisKoOpts netDown World.init
      "connection refused" rfl rfl rfl).1,
    (redis_dial_failure_keeps_httpClient redisKoCfg redisKoOpts netDown World.init
      "connection refused" rfl rfl rfl).2.1,
    (redis_dial_failure_keeps_httpClient redisKoCfg redisKoOpts netDown World.init
      "connection refused" rfl rfl rfl).2.2.2.1 [] rfl rfl⟩

/-- C10: in redis mode redis_db is honoured only when its value has the dynamic type
int: whenever the option holds anything else (a float64 such as the 3.0 of a
JSON-decoded configuration, an int64, a string, or nothing) the dial is made with
database index 0. -/
theorem redis_db_honoured_only_as_int (cfg : Backend) (opts : GoMap) (net : Network)
    (w : World)
    (h : cfg.ExtraConfig.lookup Namespace = some (Value.map opts))
    (hs : opts.index "storage" = Value.str "redis")
    (hdb : ∀ n : Int, opts.index "redis_db" ≠ Value.int n) :
    (buildAndInvoke cfg net w).2.dials = w.dials ++ [redisParams opts] ∧
      (redisParams opts).db = 0 := by
  have hs1 : storageOf opts = "redis" :=
    (storageOf_eq_redis opts).2 ((asString_eq_some _ _).2 hs)
  rw [buildAndInvoke_present cfg _ net w h]
  refine ⟨cachedFactory_redis_dials opts net w hs1, ?_⟩
  have hnone : (opts.index "redis_db").asInt = none := (asInt_eq_none _).2 hdb
  simp [redisParams, hnone]

theorem redis_db_honoured_only_as_int_witness :
    (({ ExtraConfig := [(Namespace, Value.map
          [("storage", Value.str "redis"), ("redis_db", Value.float64 0x4008000000000000)])] }
        : Backend).ExtraConfig.lookup Namespace
      = some (Value.map
          [("storage", Value.str "redis"), ("redis_db", Value.float64 0x4008000000000000)])) ∧
      (∀ n : Int, GoMap.index
          [("storage", Value.str "redis"), ("redis_db", Value.float64 0x4008000000000000)]
          "redis_db" ≠ Value.int n) ∧
      ((buildAndInvoke { ExtraConfig := [(Namespace, Value.map
          [("storage", Value.str "redis"), ("redis_db", Value.float64 0x4008000000000000)])] }
          netUp World.init).2.dials =
        World.init.dials ++ [redisParams
          [("storage", Value.str "redis"), ("redis_db", Value.float64 0x4008000000000000)]] ∧
        (redisParams
          [("storage", Value.str "redis"), ("redis_db", Value.float64 0x4008000000000000)]).db
          = 0) :=
  ⟨rfl, fun _ hn => Value.noConfusion hn,
    redis_db_honoured_only_as_int _ _ netUp World.init rfl rfl
      (fun _ hn => Value.noConfusion hn)⟩

end HttpCache
